import Mathlib

/-
Verification of the graph specification / validation / layout / AI-refinement
pipeline of the Prompt-or-Die Architect repository.

The definitions below are a shallow embedding of the TypeScript sources:
  * src/types/schemas.ts        (zod GraphSchema, StackConfigSchema)
  * src/lib/layout.ts           (layout adapter around the external ELK engine)
  * src/app/api/graph/suggest/route.ts    (POST handler)
  * src/app/api/graph/from-text/route.ts  (POST handler)
  * src/app/api/stack/recommend/route.ts  (POST handler)
  * src/app/api/project/plan/route.ts     (POST handler)
  * src/lib/ai.ts               (generate* helpers built on the model client)
  * src/app/home/page.tsx       (toRF: projection of a Graph into render state)

The external generative model is treated as an oracle: the optional content
string of the single chat completion the code reads.  The external ELK layout
engine is treated as a function (or a fallible function) from the elk input
graph built by layout.ts to an elk result.
-/

/-- Closed enumeration of node kinds, from GraphNodeSchema
(z.enum(["service", "db", "queue", "page", "step"])). -/
inductive Kind where
  | service
  | db
  | queue
  | page
  | step
deriving DecidableEq, Repr

/-- The enum membership test performed by z.enum on the kind field:
the five accepted literals map to a Kind, everything else is refused. -/
def kindOfString (s : String) : Option Kind :=
  match s with
  | "service" => some Kind.service
  | "db" => some Kind.db
  | "queue" => some Kind.queue
  | "page" => some Kind.page
  | "step" => some Kind.step
  | _ => none

/-- An untrusted node candidate presented to GraphNodeSchema.safeParse:
`id` and `label` are the supplied strings (validated by z.string().min(1)),
`kind` is the supplied optional string (validated against the closed enum),
`group` is the optional string field and `data` the optional string-keyed
record (z.record(z.unknown()), values abstracted as strings since they are
never inspected). -/
structure GraphNodeCand where
  id : String
  label : String
  group : Option String
  kind : Option String
  data : Option (List (String × String))
deriving DecidableEq, Repr

/-- An edge as declared by GraphEdgeSchema; candidates and parsed edges have
the same shape because no field of an edge is transformed by the schema. -/
structure GraphEdge where
  id : String
  source : String
  target : String
  label : Option String
  directed : Option Bool
deriving DecidableEq, Repr

/-- An untrusted graph candidate presented to GraphSchema.safeParse. -/
structure GraphCand where
  nodes : List GraphNodeCand
  edges : List GraphEdge
deriving DecidableEq, Repr

/-- A parsed node (output side of GraphNodeSchema): kind is a member of the
closed enumeration. -/
structure GraphNode where
  id : String
  label : String
  group : Option String
  kind : Option Kind
  data : Option (List (String × String))
deriving DecidableEq, Repr

/-- A parsed Graph, as in src/types/graph.ts. -/
structure Graph where
  nodes : List GraphNode
  edges : List GraphEdge
deriving DecidableEq, Repr

/-- One zod issue: a field path and a message, as collected by safeParse and
exposed by error.flatten() in field-addressable form. -/
structure Issue where
  path : List String
  message : String
deriving DecidableEq, Repr

/-- Message issued by z.string().min(1). -/
def minLenMessage : String := "String must contain at least 1 character(s)"

/-- Message issued by z.enum on an invalid literal. -/
def invalidEnumMessage : String := "Invalid enum value"

/-- The issues contributed by a z.string().min(1) field. -/
def minLenIssue (path : List String) (s : String) : List Issue :=
  if s = "" then [⟨path, minLenMessage⟩] else []

/-- The issues contributed by the optional closed-enum kind field. -/
def kindIssue (path : List String) (k : Option String) : List Issue :=
  match k with
  | none => []
  | some s =>
    match kindOfString s with
    | some _ => []
    | none => [⟨path, invalidEnumMessage⟩]

/-- Issues collected for the node at index i, per GraphNodeSchema. -/
def nodeIssues (i : Nat) (n : GraphNodeCand) : List Issue :=
  minLenIssue ["nodes", toString i, "id"] n.id ++
  minLenIssue ["nodes", toString i, "label"] n.label ++
  kindIssue ["nodes", toString i, "kind"] n.kind

/-- Issues collected for the edge at index i, per GraphEdgeSchema. -/
def edgeIssues (i : Nat) (e : GraphEdge) : List Issue :=
  minLenIssue ["edges", toString i, "id"] e.id ++
  minLenIssue ["edges", toString i, "source"] e.source ++
  minLenIssue ["edges", toString i, "target"] e.target

/-- Issue collection over an indexed list, as zod walks an array element by
element recording the index in the path. -/
def indexedIssues (f : Nat → a → List Issue) : Nat → List a → List Issue
  | _, [] => []
  | i, x :: xs => f i x ++ indexedIssues f (i + 1) xs

/-- All issues GraphSchema.safeParse collects for a candidate. -/
def graphIssues (c : GraphCand) : List Issue :=
  indexedIssues nodeIssues 0 c.nodes ++ indexedIssues edgeIssues 0 c.edges

/-- Output-side conversion of a valid node candidate; only reached when the
kind string (if any) is one of the five literals. -/
def parseNode (n : GraphNodeCand) : GraphNode :=
  ⟨n.id, n.label, n.group, n.kind.bind kindOfString, n.data⟩

/-- GraphSchema.safeParse: succeeds exactly when no issue is collected,
returning the parsed Graph; otherwise returns the collected issues
(surfaced to callers through error.flatten()). -/
def validateGraph (c : GraphCand) : Except (List Issue) Graph :=
  match graphIssues c with
  | [] => Except.ok ⟨c.nodes.map parseNode, c.edges⟩
  | i :: is => Except.error (i :: is)

/-- Whether safeParse reported success for the candidate. -/
def validateOk (c : GraphCand) : Bool :=
  match validateGraph c with
  | Except.ok _ => true
  | Except.error _ => false

/-- The optional kind field passes the closed-enum check. -/
def kindOk (k : Option String) : Bool :=
  match k with
  | none => true
  | some s => (kindOfString s).isSome

/-- Per-field constraints of GraphNodeSchema on one node candidate. -/
def nodeFieldsOk (n : GraphNodeCand) : Bool :=
  (n.id != "") && (n.label != "") && kindOk n.kind

/-- Per-field constraints of GraphEdgeSchema on one edge. -/
def edgeFieldsOk (e : GraphEdge) : Bool :=
  (e.id != "") && (e.source != "") && (e.target != "")

/-- All per-field constraints of GraphSchema on a candidate. -/
def graphFieldsOk (c : GraphCand) : Bool :=
  c.nodes.all nodeFieldsOk && c.edges.all edgeFieldsOk

/-- Some edge of the candidate references a source or target id that is not
the id of any node of the candidate. -/
def hasDanglingEdge (c : GraphCand) : Bool :=
  c.edges.any fun e =>
    !(c.nodes.any fun n => n.id == e.source) ||
    !(c.nodes.any fun n => n.id == e.target)

/-- Two distinct node entries of the candidate share an id. -/
def hasDupNodeIds (c : GraphCand) : Bool :=
  !((c.nodes.map GraphNodeCand.id).Nodup : Bool)

theorem minLenIssue_eq_nil (p : List String) (s : String) :
    minLenIssue p s = [] ↔ s ≠ "" := by
  unfold minLenIssue
  by_cases h : s = "" <;> simp [h]

theorem kindIssue_eq_nil (p : List String) (k : Option String) :
    kindIssue p k = [] ↔ kindOk k = true := by
  unfold kindIssue kindOk
  cases k with
  | none => simp
  | some s => cases h : kindOfString s <;> simp [h, Option.isSome]

theorem nodeIssues_eq_nil (i : Nat) (n : GraphNodeCand) :
    nodeIssues i n = [] ↔ nodeFieldsOk n = true := by
  unfold nodeIssues nodeFieldsOk
  simp [minLenIssue_eq_nil, kindIssue_eq_nil, bne_iff_ne, and_assoc]

theorem edgeIssues_eq_nil (i : Nat) (e : GraphEdge) :
    edgeIssues i e = [] ↔ edgeFieldsOk e = true := by
  unfold edgeIssues edgeFieldsOk
  simp [minLenIssue_eq_nil, bne_iff_ne, and_assoc]

theorem indexedIssues_eq_nil (f : Nat → a → List Issue) (P : a → Bool)
    (hf : ∀ i x, f i x = [] ↔ P x = true) :
    ∀ (i : Nat) (xs : List a), indexedIssues f i xs = [] ↔ xs.all P = true := by
  intro i xs
  induction xs generalizing i with
  | nil => simp [indexedIssues]
  | cons x xs ih => simp [indexedIssues, hf, ih]

theorem graphIssues_eq_nil (c : GraphCand) :
    graphIssues c = [] ↔ graphFieldsOk c = true := by
  unfold graphIssues graphFieldsOk
  simp [indexedIssues_eq_nil nodeIssues nodeFieldsOk nodeIssues_eq_nil,
        indexedIssues_eq_nil edgeIssues edgeFieldsOk edgeIssues_eq_nil]

theorem validateOk_eq_fieldsOk (c : GraphCand) :
    validateOk c = graphFieldsOk c := by
  unfold validateOk validateGraph
  cases h : graphIssues c with
  | nil =>
    have := (graphIssues_eq_nil c).mp h
    simp [this]
  | cons i is =>
    have : ¬ graphFieldsOk c = true := by
      intro hc
      have := (graphIssues_eq_nil c).mpr hc
      rw [h] at this
      exact List.cons_ne_nil i is this
    simp [Bool.not_eq_true] at this
    simp [this]

/-- Minimal accepted candidate of the spec's correctness test:
one node with id "a" and label "A", no edges. -/
def minimalCand : GraphCand :=
  ⟨[⟨"a", "A", none, none, none⟩], []⟩

/-- Rejected candidate of the spec's correctness test: one node whose id and
label are both empty. -/
def emptyFieldsCand : GraphCand :=
  ⟨[⟨"", "", none, none, none⟩], []⟩

/-- Claim C1: validateGraph (GraphSchema.safeParse) succeeds on a candidate
exactly when every node has a non-empty id and label and a kind (if present)
inside the closed enumeration, and every edge has a non-empty id, source and
target; in particular the one-good-node candidate is accepted and the
empty-id/empty-label candidate is rejected. -/
theorem claim1_validator_correctness :
    (∀ c : GraphCand, validateOk c = graphFieldsOk c)
    ∧ validateOk minimalCand = true
    ∧ validateOk emptyFieldsCand = false := by
  refine ⟨validateOk_eq_fieldsOk, ?_, ?_⟩ <;> decide

/-- Candidate exhibiting both a dangling edge and a duplicated node id while
passing every per-field check. -/
def danglingDupCand : GraphCand :=
  ⟨[⟨"a", "A", none, none, none⟩, ⟨"a", "B", none, none, none⟩],
   [⟨"e1", "a", "ghost", none, none⟩]⟩

/-- Claim C7: the validator accepts any candidate passing the per-field
checks, regardless of dangling edge endpoints or duplicated node ids; the
concrete candidate danglingDupCand has a dangling edge and a duplicate node
id and is accepted. -/
theorem claim7_validator_lenient :
    (∀ c : GraphCand, graphFieldsOk c = true → validateOk c = true)
    ∧ validateOk danglingDupCand = true
    ∧ hasDanglingEdge danglingDupCand = true
    ∧ hasDupNodeIds danglingDupCand = true := by
  refine ⟨?_, by decide, by decide, by decide⟩
  intro c hc
  rw [validateOk_eq_fieldsOk]
  exact hc

/-- Witness for claim C7 at the concrete dangling/duplicate candidate. -/
theorem claim7_validator_lenient_witness :
    graphFieldsOk danglingDupCand = true ∧ validateOk danglingDupCand = true :=
  ⟨by decide, claim7_validator_lenient.1 danglingDupCand (by decide)⟩

/-- One child of the elk input graph built by layout.ts: a node id with the
fixed 200 by 80 footprint. -/
structure ElkChild where
  id : String
  width : Nat
  height : Nat
deriving DecidableEq, Repr

/-- One edge of the elk input graph built by layout.ts. -/
structure ElkEdge where
  id : String
  sources : List String
  targets : List String
deriving DecidableEq, Repr

/-- The elk input graph built by layout.ts: root id, the four fixed layout
options, one child per graph node, one edge per graph edge. -/
structure ElkGraph where
  id : String
  layoutOptions : List (String × String)
  children : List ElkChild
  edges : List ElkEdge
deriving DecidableEq, Repr

/-- A child of the elk result: an id and optional coordinates (c.x and c.y
may be undefined in the result, which layout.ts defaults with ?? 0;
coordinates are abstracted as integers, no claim computes with them). -/
structure ElkOutChild where
  id : String
  x : Option Int
  y : Option Int
deriving DecidableEq, Repr

/-- The elk result read by layout.ts: res.children is optional
(res.children?.forEach). -/
structure ElkResult where
  children : Option (List ElkOutChild)
deriving DecidableEq, Repr

/-- A screen position, as in the record built by layout.ts. -/
structure Pos where
  x : Int
  y : Int
deriving DecidableEq, Repr

/-- The elk input graph layout.ts builds from a Graph. -/
def toElkGraph (g : Graph) : ElkGraph :=
  ⟨"root",
   [("elk.algorithm", "layered"),
    ("elk.spacing.nodeNode", "40"),
    ("elk.layered.spacing.nodeNodeBetweenLayers", "60"),
    ("elk.direction", "RIGHT")],
   g.nodes.map (fun n => ⟨n.id, 200, 80⟩),
   g.edges.map (fun e => ⟨e.id, [e.source], [e.target]⟩)⟩

/-- The position layout.ts stores for one result child: x ?? 0, y ?? 0. -/
def posOf (c : ElkOutChild) : Pos :=
  ⟨c.x.getD 0, c.y.getD 0⟩

/-- Assignment pos[k] = v on a string-keyed record, preserving first-insertion
key order and overwriting an existing key, as a JavaScript object does. -/
def insertPos (m : List (String × Pos)) (k : String) (v : Pos) : List (String × Pos) :=
  if m.any (fun p => p.1 == k) then
    m.map (fun p => if p.1 == k then (k, v) else p)
  else
    m ++ [(k, v)]

/-- The record layout.ts builds by iterating res.children?.forEach and
assigning pos[c.id] = (x ?? 0, y ?? 0); an absent children list contributes
nothing. -/
def collectPositions (res : ElkResult) : List (String × Pos) :=
  (res.children.getD []).foldl (fun m c => insertPos m c.id (posOf c)) []

/-- layout(graph) for an elk engine that returns a result: build the elk
graph, run the engine, collect the returned positions. -/
def layoutWith (alg : ElkGraph → ElkResult) (g : Graph) : List (String × Pos) :=
  collectPositions (alg (toElkGraph g))

/-- layout(graph) for a fallible elk engine: the code awaits elk.layout with
no try/catch, so an engine error is the error of the whole call. -/
def layoutE (alg : ElkGraph → Except String ElkResult) (g : Graph) :
    Except String (List (String × Pos)) :=
  match alg (toElkGraph g) with
  | Except.error e => Except.error e
  | Except.ok res => Except.ok (collectPositions res)

/-- The keys of a position record, in insertion order. -/
def keysOf (m : List (String × Pos)) : List String :=
  m.map Prod.fst

/-- Whether a fallible layout call returned normally. -/
def layoutReturnedOk (r : Except String (List (String × Pos))) : Bool :=
  match r with
  | Except.ok _ => true
  | Except.error _ => false

theorem insertPos_of_not_mem (m : List (String × Pos)) (k : String) (v : Pos)
    (h : k ∉ keysOf m) : insertPos m k v = m ++ [(k, v)] := by
  unfold insertPos
  have hfalse : m.any (fun p => p.1 == k) = false := by
    rw [List.any_eq_false]
    intro p hp hbeq
    apply h
    have hpk : p.1 = k := by simpa using hbeq
    exact hpk ▸ List.mem_map.mpr ⟨p, hp, rfl⟩
  rw [hfalse]
  simp

theorem foldl_insertPos_eq (cs : List ElkOutChild) :
    ∀ m : List (String × Pos),
      (keysOf m ++ cs.map ElkOutChild.id).Nodup →
      cs.foldl (fun acc c => insertPos acc c.id (posOf c)) m
        = m ++ cs.map (fun c => (c.id, posOf c)) := by
  induction cs with
  | nil => intro m _; simp
  | cons c cs ih =>
    intro m h
    have hsplit : (keysOf m ++ c.id :: cs.map ElkOutChild.id).Nodup := by
      simpa using h
    have hk : c.id ∉ keysOf m := by
      rw [List.nodup_append] at hsplit
      intro hc
      exact hsplit.2.2 hc (List.mem_cons_self c.id (cs.map ElkOutChild.id))
    have hkeys : keysOf (m ++ [(c.id, posOf c)]) = keysOf m ++ [c.id] := by
      simp [keysOf]
    have hnext : (keysOf (m ++ [(c.id, posOf c)]) ++ cs.map ElkOutChild.id).Nodup := by
      rw [hkeys, List.append_assoc]
      simpa using hsplit
    rw [List.foldl_cons, insertPos_of_not_mem m c.id (posOf c) hk, ih _ hnext]
    simp

theorem collectPositions_eq (res : ElkResult)
    (h : ((res.children.getD []).map ElkOutChild.id).Nodup) :
    collectPositions res = (res.children.getD []).map (fun c => (c.id, posOf c)) := by
  unfold collectPositions
  rw [foldl_insertPos_eq]
  · simp
  · simpa [keysOf] using h

theorem lookup_map_posOf (cs : List ElkOutChild)
    (h : (cs.map ElkOutChild.id).Nodup) (c : ElkOutChild) (hc : c ∈ cs) :
    (cs.map (fun d => (d.id, posOf d))).lookup c.id = some (posOf c) := by
  induction cs with
  | nil => cases hc
  | cons d ds ih =>
    simp only [List.map_cons, List.lookup_cons]
    rcases List.mem_cons.mp hc with hcd | hcds
    · subst hcd
      simp
    · have hd : d.id ∉ ds.map ElkOutChild.id := by
        simp only [List.map_cons, List.nodup_cons] at h
        exact h.1
      have hne : (c.id == d.id) = false := by
        rw [beq_eq_false_iff_ne]
        intro he
        exact hd (he ▸ List.mem_map.mpr ⟨c, hcds, rfl⟩)
      rw [hne]
      exact ih (by simp only [List.map_cons, List.nodup_cons] at h; exact h.2) hcds

/-- Graph with a single node "a", used as the concrete input of several
claims. -/
def oneNodeGraph : Graph :=
  ⟨[⟨"a", "A", none, none, none⟩], []⟩

/-- An elk engine run whose result omits every input node (returns an empty
children list). -/
def emptyChildrenAlg : ElkGraph → ElkResult :=
  fun _ => ⟨some []⟩

/-- Counterexample to claim C3 as stated: when the underlying algorithm's
output omits a node, layout assigns it no position at all (lookup is none,
the key set is empty) instead of the claimed default position of zeroes, so
the key set of layout(g) differs from the node id set of g. -/
theorem claim3_counterexample :
    (layoutWith emptyChildrenAlg oneNodeGraph).lookup "a" = none
    ∧ keysOf (layoutWith emptyChildrenAlg oneNodeGraph) = []
    ∧ oneNodeGraph.nodes.map GraphNode.id = ["a"] := by
  refine ⟨?_, ?_, ?_⟩ <;> rfl

/-- Claim C3, amended: the keys of layout(g) are exactly the ids of the
children returned by the algorithm; whenever the algorithm returns exactly
one child per node of g (in order), the key list of layout(g) equals the node
id list of g and every returned child is looked up at the position built from
its coordinates, a missing x or y coordinate defaulting to 0.  A node absent
from the algorithm's output receives no entry from layout itself; the zero
default for such nodes is applied by the caller (toRF). -/
theorem claim3_layout_completeness (alg : ElkGraph → ElkResult) (g : Graph)
    (hids : ((alg (toElkGraph g)).children.getD []).map ElkOutChild.id
              = g.nodes.map GraphNode.id)
    (hnd : (g.nodes.map GraphNode.id).Nodup) :
    keysOf (layoutWith alg g) = g.nodes.map GraphNode.id
    ∧ ∀ c ∈ (alg (toElkGraph g)).children.getD [],
        (layoutWith alg g).lookup c.id = some (posOf c) := by
  have hnd' : (((alg (toElkGraph g)).children.getD []).map ElkOutChild.id).Nodup := by
    rw [hids]; exact hnd
  have hcoll : layoutWith alg g
      = ((alg (toElkGraph g)).children.getD []).map (fun c => (c.id, posOf c)) := by
    unfold layoutWith
    exact collectPositions_eq _ hnd'
  constructor
  · rw [hcoll]
    unfold keysOf
    rw [List.map_map]
    exact hids
  · intro c hc
    rw [hcoll]
    exact lookup_map_posOf _ hnd' c hc

/-- An elk engine run returning one child per node of oneNodeGraph, with a
defined x and an undefined y. -/
def oneChildAlg : ElkGraph → ElkResult :=
  fun _ => ⟨some [⟨"a", some 12, none⟩]⟩

/-- Witness for the amended claim C3 at a concrete engine and graph: the key
list is exactly ["a"] and the child with undefined y is looked up at y = 0. -/
theorem claim3_layout_completeness_witness :
    keysOf (layoutWith oneChildAlg oneNodeGraph) = ["a"]
    ∧ (layoutWith oneChildAlg oneNodeGraph).lookup "a" = some ⟨12, 0⟩ := by
  have h := claim3_layout_completeness oneChildAlg oneNodeGraph (by decide) (by decide)
  refine ⟨h.1, ?_⟩
  have := h.2 ⟨"a", some 12, none⟩ (by decide)
  simpa [posOf] using this

/-- Claim C4: layout is deterministic — for a fixed engine, two calls on
structurally identical graphs yield identical position records: same key
list and the same looked-up position for every key. -/
theorem claim4_layout_deterministic (alg : ElkGraph → ElkResult)
    (g g' : Graph) (h : g = g') :
    keysOf (layoutWith alg g) = keysOf (layoutWith alg g')
    ∧ ∀ k : String, (layoutWith alg g).lookup k = (layoutWith alg g').lookup k := by
  subst h
  exact ⟨rfl, fun _ => rfl⟩

/-- Witness for claim C4 at a concrete engine and graph. -/
theorem claim4_layout_deterministic_witness :
    keysOf (layoutWith oneChildAlg oneNodeGraph)
      = keysOf (layoutWith oneChildAlg oneNodeGraph)
    ∧ ∀ k : String, (layoutWith oneChildAlg oneNodeGraph).lookup k
      = (layoutWith oneChildAlg oneNodeGraph).lookup k :=
  claim4_layout_deterministic oneChildAlg oneNodeGraph oneNodeGraph rfl

/-- An elk engine run that throws. -/
def throwingAlg : ElkGraph → Except String ElkResult :=
  fun _ => Except.error "elk layout failed"

/-- Counterexample to claim C5 as stated: layout awaits the engine with no
try/catch, so an engine exception propagates out of layout unchanged — the
call does not return a typed failure value and does not return normally. -/
theorem claim5_counterexample :
    layoutE throwingAlg oneNodeGraph = Except.error "elk layout failed"
    ∧ layoutReturnedOk (layoutE throwingAlg oneNodeGraph) = false := by
  exact ⟨rfl, rfl⟩

/-- Claim C5, amended: if the underlying algorithm throws, layout propagates
that exception unchanged to its caller (there is no handler in the adapter);
when the algorithm returns a result, layout returns normally with the
collected positions and raises nothing itself. -/
theorem claim5_layout_propagates (alg : ElkGraph → Except String ElkResult)
    (g : Graph) :
    (∀ e : String, alg (toElkGraph g) = Except.error e →
       layoutE alg g = Except.error e)
    ∧ (∀ res : ElkResult, alg (toElkGraph g) = Except.ok res →
       layoutE alg g = Except.ok (collectPositions res)) := by
  constructor
  · intro e he
    unfold layoutE
    rw [he]
  · intro res hres
    unfold layoutE
    rw [hres]

/-- Witness for the amended claim C5 at a concrete throwing engine and a
concrete succeeding engine. -/
theorem claim5_layout_propagates_witness :
    layoutE throwingAlg oneNodeGraph = Except.error "elk layout failed"
    ∧ layoutE (fun eg => Except.ok (emptyChildrenAlg eg)) oneNodeGraph
        = Except.ok (collectPositions ⟨some []⟩) :=
  ⟨(claim5_layout_propagates throwingAlg oneNodeGraph).1 "elk layout failed" rfl,
   (claim5_layout_propagates (fun eg => Except.ok (emptyChildrenAlg eg)) oneNodeGraph).2
     ⟨some []⟩ rfl⟩

/-- One React Flow node as built by toRF in src/app/home/page.tsx: id, the
fixed "glass" node type, data with label and kind (kind defaulting to
service), and the laid-out position (defaulting to the origin when the node
id is absent from the position record). -/
structure RFNode where
  id : String
  nodeType : String
  dataLabel : String
  dataKind : Kind
  position : Pos
deriving DecidableEq, Repr

/-- One React Flow edge as built by toRF: id, source, target, label, and the
fixed animated flag. -/
structure RFEdge where
  id : String
  source : String
  target : String
  label : Option String
  animated : Bool
deriving DecidableEq, Repr

/-- The rendered state held by useNodesState/useEdgesState. -/
structure RenderState where
  nodes : List RFNode
  edges : List RFEdge
deriving DecidableEq, Repr

/-- toRF from src/app/home/page.tsx: lay the graph out, project every graph
node and edge into render shape, and call setNodes/setEdges, which replace
the previous state wholesale — the previous state is an argument only to
record that it is ignored. -/
def toRF (alg : ElkGraph → ElkResult) (g : Graph) (_prev : RenderState) :
    RenderState :=
  ⟨g.nodes.map (fun n =>
      ⟨n.id, "glass", n.label, n.kind.getD Kind.service,
       ((layoutWith alg g).lookup n.id).getD ⟨0, 0⟩⟩),
   g.edges.map (fun e => ⟨e.id, e.source, e.target, e.label, true⟩)⟩

/-- Claim C6: after a successful suggest round trip the render state is
replaced wholesale — the node id list and edge id list of the new state are
exactly those of the graph the model returned, the result does not depend on
the prior state in any way, every rendered node's id comes from the returned
graph, and a returned node missing from the layout record is rendered at the
origin. -/
theorem claim6_replace_semantics (alg : ElkGraph → ElkResult) (g : Graph)
    (prev prev' : RenderState) :
    (toRF alg g prev).nodes.map RFNode.id = g.nodes.map GraphNode.id
    ∧ (toRF alg g prev).edges.map RFEdge.id = g.edges.map GraphEdge.id
    ∧ toRF alg g prev = toRF alg g prev'
    ∧ (∀ rn ∈ (toRF alg g prev).nodes, rn.id ∈ g.nodes.map GraphNode.id)
    ∧ (toRF alg g prev).nodes.map RFNode.position
        = g.nodes.map (fun n => ((layoutWith alg g).lookup n.id).getD ⟨0, 0⟩) := by
  refine ⟨?_, ?_, rfl, ?_, ?_⟩
  · simp [toRF]
  · simp [toRF]
  · intro rn hrn
    simp only [toRF, List.mem_map] at hrn
    rcases hrn with ⟨n, hn, hrn⟩
    subst hrn
    exact List.mem_map.mpr ⟨n, hn, rfl⟩
  · simp [toRF]

/-- A prior render state holding a node and an edge the model did not
return. -/
def stalePrevState : RenderState :=
  ⟨[⟨"old", "glass", "Old", Kind.db, ⟨7, 7⟩⟩],
   [⟨"olde", "old", "old", none, true⟩]⟩

/-- Witness for claim C6 at a concrete graph and prior state: the stale node
and edge do not survive, the state is exactly the projection of the returned
graph. -/
theorem claim6_replace_semantics_witness :
    (toRF oneChildAlg oneNodeGraph stalePrevState).nodes.map RFNode.id = ["a"]
    ∧ (toRF oneChildAlg oneNodeGraph stalePrevState).edges.map RFEdge.id = []
    ∧ toRF oneChildAlg oneNodeGraph stalePrevState
        = toRF oneChildAlg oneNodeGraph ⟨[], []⟩ := by
  have h := claim6_replace_semantics oneChildAlg oneNodeGraph stalePrevState ⟨[], []⟩
  exact ⟨h.1, h.2.1, h.2.2.1⟩

/-- A JSON value, the result type of the platform JSON.parse. -/
inductive Json where
  | null
  | bool (b : Bool)
  | num (n : Int)
  | str (s : String)
  | arr (items : List Json)
  | obj (fields : List (String × Json))

/-- The double-quote character. -/
def quoteChar : Char := Char.ofNat 34

/-- The opening-brace character. -/
def lbraceChar : Char := Char.ofNat 123

/-- The closing-brace character. -/
def rbraceChar : Char := Char.ofNat 125

/-- JSON whitespace. -/
def isWsChar (c : Char) : Bool :=
  c = ' ' || c = '\n' || c = '\t' || c = '\r'

/-- Drop leading JSON whitespace. -/
def skipWs : List Char → List Char
  | [] => []
  | c :: cs => if isWsChar c then skipWs cs else c :: cs

/-- Read the characters of a quoted string up to the closing quote (escape
sequences are not modelled; no claim depends on them). -/
def parseStrAux : List Char → Option (List Char × List Char)
  | [] => none
  | c :: cs =>
    if c = quoteChar then some ([], cs)
    else
      match parseStrAux cs with
      | some (s, rest) => some (c :: s, rest)
      | none => none

/-- Read a maximal run of decimal digits. -/
def parseDigits : List Char → List Char × List Char
  | [] => ([], [])
  | c :: cs =>
    if c.isDigit then
      match parseDigits cs with
      | (ds, rest) => (c :: ds, rest)
    else ([], c :: cs)

/-- Value of a digit run. -/
def digitsToNat (ds : List Char) : Nat :=
  ds.foldl (fun a c => a * 10 + (c.toNat - 48)) 0

mutual

/-- Modelled from the spec: the platform JSON.parse used by lib/ai and the
estimate helper is not repository code; it is embedded as a recursive-descent
reader of JSON values (fuelled for termination), simplified in ways no claim
depends on: string escapes and fractional/exponent number forms are not
read. -/
def parseVal : Nat → List Char → Option (Json × List Char)
  | 0, _ => none
  | fuel + 1, input =>
    match skipWs input with
    | [] => none
    | 't' :: 'r' :: 'u' :: 'e' :: cs => some (Json.bool true, cs)
    | 'f' :: 'a' :: 'l' :: 's' :: 'e' :: cs => some (Json.bool false, cs)
    | 'n' :: 'u' :: 'l' :: 'l' :: cs => some (Json.null, cs)
    | '[' :: cs =>
      match skipWs cs with
      | ']' :: rest => some (Json.arr [], rest)
      | other =>
        match parseItems fuel other with
        | some (vs, rest) => some (Json.arr vs, rest)
        | none => none
    | '-' :: cs =>
      match parseDigits cs with
      | ([], _) => none
      | (d :: ds, rest) => some (Json.num (-(digitsToNat (d :: ds) : Int)), rest)
    | c :: cs =>
      if c = quoteChar then
        match parseStrAux cs with
        | some (s, rest) => some (Json.str (String.mk s), rest)
        | none => none
      else if c = lbraceChar then
        match skipWs cs with
        | d :: rest =>
          if d = rbraceChar then some (Json.obj [], rest)
          else
            match parseMembers fuel (d :: rest) with
            | some (ms, r) => some (Json.obj ms, r)
            | none => none
        | [] => none
      else if c.isDigit then
        match parseDigits (c :: cs) with
        | (ds, rest) => some (Json.num (Int.ofNat (digitsToNat ds)), rest)
      else none

/-- Comma-separated values up to the closing square bracket. -/
def parseItems : Nat → List Char → Option (List Json × List Char)
  | 0, _ => none
  | fuel + 1, input =>
    match parseVal fuel input with
    | some (v, rest) =>
      match skipWs rest with
      | ',' :: rest2 =>
        match parseItems fuel rest2 with
        | some (vs, rest3) => some (v :: vs, rest3)
        | none => none
      | ']' :: rest2 => some ([v], rest2)
      | _ => none
    | none => none

/-- Comma-separated string-keyed members up to the closing brace. -/
def parseMembers : Nat → List Char → Option (List (String × Json) × List Char)
  | 0, _ => none
  | fuel + 1, input =>
    match skipWs input with
    | c :: cs =>
      if c = quoteChar then
        match parseStrAux cs with
        | some (k, rest1) =>
          match skipWs rest1 with
          | ':' :: rest2 =>
            match parseVal fuel rest2 with
            | some (v, rest3) =>
              match skipWs rest3 with
              | ',' :: rest4 =>
                match parseMembers fuel rest4 with
                | some (ms, rest5) => some ((String.mk k, v) :: ms, rest5)
                | none => none
              | d :: rest4 =>
                if d = rbraceChar then some ([(String.mk k, v)], rest4)
                else none
              | [] => none
            | none => none
          | _ => none
        | none => none
      else none
    | [] => none

end

/-- JSON.parse: read one value, require only whitespace after it; any other
outcome is a thrown SyntaxError, embedded as the error branch. -/
def jsonParse (s : String) : Except String Json :=
  match parseVal (s.length + 1) s.data with
  | some (v, rest) =>
    match skipWs rest with
    | [] => Except.ok v
    | _ => Except.error "Unexpected non-whitespace character after JSON data"
  | none => Except.error "Unexpected token in JSON"

/-- The literal empty-object text substituted for a null model content
(content ?? "\x7b\x7d"). -/
def emptyObjText : String := "\x7b\x7d"

/-- Response body of a route handler: the generic error object, the
structured 400 error with flattened field issues, a stringified JSON value,
the raw passthrough of model text, or plain text. -/
inductive ApiBody where
  | errMsg (message : String)
  | errDetails (message : String) (details : List Issue)
  | jsonVal (j : Json)
  | raw (s : String)
  | text (s : String)

/-- Observable outcome of one POST handler: status code, body, and how many
model invocations the handler performed. -/
structure ApiResponse where
  status : Nat
  body : ApiBody
  modelCalls : Nat

/-- Error message of the suggest route's 400 response. -/
def errInvalidGraphMessage : String := "Invalid graph payload"

/-- Error message of the stack-recommend catch block. -/
def errStackMessage : String := "Failed to generate stack recommendation"

/-- Error message of the project-plan catch block. -/
def errPlanMessage : String := "Failed to generate project plan"

/-- POST /api/graph/suggest: safeParse the graph; on failure answer 400 with
the error message and the flattened issues without touching the model; on
success call the model once and return its content (null replaced by the
empty-object text) as the body with the default 200 status.  The model call
is abstracted as the oracle holding the optional completion content. -/
def suggestRoute (oracle : Option String) (graph : GraphCand) (_goal : String) :
    ApiResponse :=
  match validateGraph graph with
  | Except.error issues => ⟨400, ApiBody.errDetails errInvalidGraphMessage issues, 0⟩
  | Except.ok _ => ⟨200, ApiBody.raw (oracle.getD emptyObjText), 1⟩

/-- GRAPH_JSON_INSTRUCTIONS from lib/ai, the system-graph system prompt. -/
def GRAPH_JSON_INSTRUCTIONS : String :=
  "\nReturn JSON with shape \x7b \"nodes\": [...], \"edges\": [...] \x7d.\nEach node: \x7b \"id\": \"string\", \"label\": \"string\", \"kind\": \"service|db|queue|page|step\" \x7d.\nEach edge: \x7b \"id\": \"string\", \"source\": \"nodeId\", \"target\": \"nodeId\", \"label\": \"string?\" \x7d.\nNo prose. JSON only.\n"

/-- Modelled from the spec: USER_FLOW_JSON_INSTRUCTIONS is imported by the
from-text route from lib/ai but its definition is not among the sources; per
the spec it is the task-specific system instruction of the user-flow variant
(kinds page and step).  Its exact text affects no claim; it is embedded as a
fixed string distinct from GRAPH_JSON_INSTRUCTIONS. -/
def USER_FLOW_JSON_INSTRUCTIONS : String :=
  "\nReturn JSON with shape \x7b \"nodes\": [...], \"edges\": [...] \x7d.\nEach node kind: page|step.\nNo prose. JSON only.\n"

/-- Leading text of the from-text user message in the system-graph variant
(the template literal before the interpolated text). -/
def fromTextSystemLead : String := "Turn this idea into a system graph. "

/-- Leading text of the from-text user message in the user-flow variant. -/
def fromTextFlowLead : String := "Turn this idea into a user flow graph. "

/-- The literal compared against the request type field. -/
def userFlowTag : String := "user-flow"

/-- The system and user message contents of one chat completion request. -/
structure ChatCall where
  systemContent : String
  userContent : String
deriving DecidableEq, Repr

/-- POST /api/graph/from-text: pick the system prompt and the user prompt by
strict equality of the request type with "user-flow", call the model once,
and return its content (null replaced by the empty-object text) as the body
with the default 200 status and no output validation.  The request type is
an optional string (absent, "system", "user-flow", or anything else). -/
def fromTextRoute (oracle : Option String) (text : String) (typ : Option String) :
    ChatCall × ApiResponse :=
  let sysContent :=
    if typ = some userFlowTag then USER_FLOW_JSON_INSTRUCTIONS
    else GRAPH_JSON_INSTRUCTIONS
  let usrContent :=
    if typ = some userFlowTag then fromTextFlowLead ++ text
    else fromTextSystemLead ++ text
  (⟨sysContent, usrContent⟩,
   ⟨200, ApiBody.raw (oracle.getD emptyObjText), 1⟩)

/-- generateStackRecommendation from lib/ai: one model call, then
JSON.parse(content ?? "\x7b\x7d"); a parse failure is a thrown exception
(the error branch). -/
def generateStackRecommendation (content : Option String) : Except String Json :=
  jsonParse (content.getD emptyObjText)

/-- generateProjectPlan from lib/ai: same parse of content ?? "\x7b\x7d". -/
def generateProjectPlan (content : Option String) : Except String Json :=
  jsonParse (content.getD emptyObjText)

/-- generateScaffold from lib/ai: same parse of content ?? "\x7b\x7d". -/
def generateScaffold (content : Option String) : Except String Json :=
  jsonParse (content.getD emptyObjText)

/-- estimateCostTime from lib/ai: same parse of content ?? "\x7b\x7d". -/
def estimateCostTime (content : Option String) : Except String Json :=
  jsonParse (content.getD emptyObjText)

/-- generateDocsFromPlan from lib/ai: returns content || "", the Markdown
text with no JSON parsing; a falsy content (null or the empty string) gives
the empty string. -/
def generateDocsFromPlan (content : Option String) : String :=
  match content with
  | none => ""
  | some s => if s = "" then "" else s

/-- An untrusted stack candidate presented to StackConfigSchema: type and
framework strings checked against their enumerations, features an optional
string list (defaulted, never refused), and three optional enumerated
fields. -/
structure StackConfigCand where
  stackType : String
  framework : String
  features : Option (List String)
  database : Option String
  auth : Option String
  styling : Option String
deriving DecidableEq, Repr

/-- Literals of StackTypeSchema. -/
def stackTypeLiterals : List String :=
  ["web", "mobile", "backend", "blockchain", "ai"]

/-- Literals of FrameworkSchema. -/
def frameworkLiterals : List String :=
  ["nextjs", "react", "vue", "svelte", "solid", "flutter", "react-native",
   "fastapi", "hono", "express", "hardhat", "anchor", "langchain"]

/-- Literals of the database enum. -/
def databaseLiterals : List String :=
  ["postgres", "mysql", "sqlite", "mongodb"]

/-- Literals of the auth enum. -/
def authLiterals : List String :=
  ["clerk", "nextauth", "supabase-auth"]

/-- Literals of the styling enum. -/
def stylingLiterals : List String :=
  ["tailwind", "styled-components", "emotion"]

/-- An optional enum field passes when absent or a listed literal. -/
def optEnumOk (lits : List String) (v : Option String) : Bool :=
  match v with
  | none => true
  | some s => lits.contains s

/-- StackConfigSchema.parse succeeds on the candidate. -/
def validStackConfig (s : StackConfigCand) : Bool :=
  stackTypeLiterals.contains s.stackType &&
  frameworkLiterals.contains s.framework &&
  optEnumOk databaseLiterals s.database &&
  optEnumOk authLiterals s.auth &&
  optEnumOk stylingLiterals s.styling

/-- The optional stack of the plan request passes StackConfigSchema
(absent is fine: the schema marks it optional). -/
def suppliedStackOk (stack : Option StackConfigCand) : Bool :=
  match stack with
  | none => true
  | some sc => validStackConfig sc

/-- POST /api/stack/recommend: inside one try/catch, zod-parse the body
(z.string().min(10) on requirements), call generateStackRecommendation, and
stringify its result; any throw — zod failure, model-call failure, or
JSON.parse failure — reaches the same catch and yields the one generic 500
body.  The model call is the oracle: an error is a model-call exception, an
ok carries the optional completion content. -/
def stackRecommendRoute (oracle : Except String (Option String))
    (requirements : String) : ApiResponse :=
  if decide (requirements.length < 10) then
    ⟨500, ApiBody.errMsg errStackMessage, 0⟩
  else
    match oracle with
    | Except.error _ => ⟨500, ApiBody.errMsg errStackMessage, 1⟩
    | Except.ok content =>
      match generateStackRecommendation content with
      | Except.ok j => ⟨200, ApiBody.jsonVal j, 1⟩
      | Except.error _ => ⟨500, ApiBody.errMsg errStackMessage, 1⟩

/-- POST /api/project/plan: same try/catch pattern with
z.object (idea: z.string().min(10), stack: StackConfigSchema.optional()). -/
def projectPlanRoute (oracle : Except String (Option String)) (idea : String)
    (stack : Option StackConfigCand) : ApiResponse :=
  if decide (idea.length < 10) || !(suppliedStackOk stack) then
    ⟨500, ApiBody.errMsg errPlanMessage, 0⟩
  else
    match oracle with
    | Except.error _ => ⟨500, ApiBody.errMsg errPlanMessage, 1⟩
    | Except.ok content =>
      match generateProjectPlan content with
      | Except.ok j => ⟨200, ApiBody.jsonVal j, 1⟩
      | Except.error _ => ⟨500, ApiBody.errMsg errPlanMessage, 1⟩

/-- A sample non-null model content. -/
def modelText : String := "model output"

/-- A sample goal string. -/
def goalText : String := "add a cache"

/-- A non-null model content that is not JSON. -/
def notJsonText : String := "not json"

/-- A requirements string passing the ten-character minimum. -/
def longReqText : String := "needs a realtime dashboard"

/-- A requirements/idea string under ten characters. -/
def shortText : String := "too short"

/-- An idea string passing the ten-character minimum. -/
def longIdeaText : String := "a community recipe sharing app"

/-- A stack candidate refused by StackConfigSchema (framework outside the
enumeration). -/
def badStackCand : StackConfigCand :=
  ⟨"web", "rails", none, none, none, none⟩

/-- The other explicit type tag of the from-text request. -/
def sysTag : String := "system"

/-- A sample idea text. -/
def sampleIdeaText : String := "two services and a database"

/-- Claim C2: when the suggest body's graph fails GraphSchema validation the
route answers 400 with the error message and the flattened (non-empty) field
issues and never invokes the model; when the graph validates, the model is
invoked exactly once and its raw content is the response body (a null
content being replaced by the empty-object text). -/
theorem claim2_suggest_validation_gate :
    (∀ (oracle : Option String) (g : GraphCand) (goal : String),
        validateOk g = false →
        suggestRoute oracle g goal
          = ⟨400, ApiBody.errDetails errInvalidGraphMessage (graphIssues g), 0⟩
        ∧ graphIssues g ≠ [])
    ∧ (∀ (oracle : Option String) (g : GraphCand) (goal : String),
        validateOk g = true →
        suggestRoute oracle g goal
          = ⟨200, ApiBody.raw (oracle.getD emptyObjText), 1⟩) := by
  constructor
  · intro oracle g goal hfail
    cases hg : graphIssues g with
    | nil => simp [validateOk, validateGraph, hg] at hfail
    | cons i is =>
      refine ⟨?_, by simp [hg]⟩
      simp [suggestRoute, validateGraph, hg]
  · intro oracle g goal hok
    cases hg : graphIssues g with
    | nil => simp [suggestRoute, validateGraph, hg]
    | cons i is => simp [validateOk, validateGraph, hg] at hok

/-- Witness for claim C2: the empty-fields candidate is refused with status
400 and zero model calls, the minimal candidate goes through with one model
call and the raw content as body. -/
theorem claim2_suggest_validation_gate_witness :
    (suggestRoute (some modelText) emptyFieldsCand goalText).status = 400
    ∧ (suggestRoute (some modelText) emptyFieldsCand goalText).modelCalls = 0
    ∧ suggestRoute (some modelText) minimalCand goalText
        = ⟨200, ApiBody.raw modelText, 1⟩ := by
  have h1 := (claim2_suggest_validation_gate.1 (some modelText) emptyFieldsCand
    goalText (by decide)).1
  have h2 := claim2_suggest_validation_gate.2 (some modelText) minimalCand
    goalText (by decide)
  refine ⟨?_, ?_, ?_⟩
  · rw [h1]
  · rw [h1]
  · rw [h2]
    rfl

/-- Claim C9: from-text selects its variant solely by strict equality of the
request type with "user-flow" — that value selects the user-flow system
instruction and user prompt, and any other value (absent, "system", or
unknown) selects the system-graph instruction and prompt; the model's raw
content is returned as the body with no output validation, a null content
being replaced by the empty-object text. -/
theorem claim9_from_text_variant :
    ∀ (oracle : Option String) (text : String) (typ : Option String),
      (typ = some userFlowTag →
        (fromTextRoute oracle text typ).1
          = ⟨USER_FLOW_JSON_INSTRUCTIONS, fromTextFlowLead ++ text⟩)
      ∧ (typ ≠ some userFlowTag →
        (fromTextRoute oracle text typ).1
          = ⟨GRAPH_JSON_INSTRUCTIONS, fromTextSystemLead ++ text⟩)
      ∧ (fromTextRoute oracle text typ).2
          = ⟨200, ApiBody.raw (oracle.getD emptyObjText), 1⟩ := by
  intro oracle text typ
  by_cases h : typ = some userFlowTag
  · exact ⟨fun _ => by simp [fromTextRoute, h], fun hc => absurd h hc,
      by simp [fromTextRoute, h]⟩
  · exact ⟨fun hc => absurd hc h, fun _ => by simp [fromTextRoute, h],
      by simp [fromTextRoute, h]⟩

/-- Witness for claim C9 at the three concrete type values "user-flow",
"system" and absent, plus the null-content response. -/
theorem claim9_from_text_variant_witness :
    (fromTextRoute (some modelText) sampleIdeaText (some userFlowTag)).1
      = ⟨USER_FLOW_JSON_INSTRUCTIONS, fromTextFlowLead ++ sampleIdeaText⟩
    ∧ (fromTextRoute (some modelText) sampleIdeaText (some sysTag)).1
      = ⟨GRAPH_JSON_INSTRUCTIONS, fromTextSystemLead ++ sampleIdeaText⟩
    ∧ (fromTextRoute (some modelText) sampleIdeaText none).1
      = ⟨GRAPH_JSON_INSTRUCTIONS, fromTextSystemLead ++ sampleIdeaText⟩
    ∧ (fromTextRoute none sampleIdeaText none).2
      = ⟨200, ApiBody.raw emptyObjText, 1⟩ :=
  ⟨(claim9_from_text_variant (some modelText) sampleIdeaText (some userFlowTag)).1 rfl,
   (claim9_from_text_variant (some modelText) sampleIdeaText (some sysTag)).2.1 (by decide),
   (claim9_from_text_variant (some modelText) sampleIdeaText none).2.1 (by decide),
   (claim9_from_text_variant none sampleIdeaText none).2.2⟩

/-- Claim C10: stack-recommend refuses a requirements string under ten
characters, and project-plan refuses an idea under ten characters or a
supplied stack failing StackConfigSchema, each with the generic 500 error
body (not a 400 with field details) and without invoking the model; a
model-call failure lands in the very same catch block and produces the same
body. -/
theorem claim10_min_length_gate :
    (∀ (oracle : Except String (Option String)) (req : String),
        req.length < 10 →
        stackRecommendRoute oracle req = ⟨500, ApiBody.errMsg errStackMessage, 0⟩)
    ∧ (∀ (oracle : Except String (Option String)) (idea : String)
         (stack : Option StackConfigCand),
        idea.length < 10 ∨ suppliedStackOk stack = false →
        projectPlanRoute oracle idea stack = ⟨500, ApiBody.errMsg errPlanMessage, 0⟩)
    ∧ (∀ (e : String) (req : String), ¬ req.length < 10 →
        stackRecommendRoute (Except.error e) req
          = ⟨500, ApiBody.errMsg errStackMessage, 1⟩) := by
  refine ⟨?_, ?_, ?_⟩
  · intro oracle req h
    simp [stackRecommendRoute, decide_eq_true h]
  · intro oracle idea stack h
    rcases h with hl | hr
    · simp [projectPlanRoute, decide_eq_true hl]
    · simp [projectPlanRoute, hr]
  · intro e req h
    simp [stackRecommendRoute, decide_eq_false h]

/-- Witness for claim C10: a nine-character requirements string is refused
with zero model calls, and a long idea with an out-of-enumeration framework
is refused with zero model calls. -/
theorem claim10_min_length_gate_witness :
    stackRecommendRoute (Except.ok (some modelText)) shortText
      = ⟨500, ApiBody.errMsg errStackMessage, 0⟩
    ∧ projectPlanRoute (Except.ok (some modelText)) longIdeaText (some badStackCand)
      = ⟨500, ApiBody.errMsg errPlanMessage, 0⟩ :=
  ⟨claim10_min_length_gate.1 (Except.ok (some modelText)) shortText (by decide),
   claim10_min_length_gate.2.1 (Except.ok (some modelText)) longIdeaText
     (some badStackCand) (Or.inr (by decide))⟩

/-- Counterexample to claim C8 as stated: an unparseable non-null model
response does not degrade to the empty-object result — stack-recommend
answers 500 with the generic error body (JSON.parse throws into the catch
block), and graph-suggest passes the unparseable text through verbatim
rather than substituting the empty object. -/
theorem claim8_counterexample :
    stackRecommendRoute (Except.ok (some notJsonText)) longReqText
      = ⟨500, ApiBody.errMsg errStackMessage, 1⟩
    ∧ (stackRecommendRoute (Except.ok (some notJsonText)) longReqText).body
        ≠ ApiBody.jsonVal (Json.obj [])
    ∧ suggestRoute (some notJsonText) minimalCand goalText
      = ⟨200, ApiBody.raw notJsonText, 1⟩
    ∧ notJsonText ≠ emptyObjText := by
  refine ⟨rfl, ?_, rfl, by decide⟩
  intro h
  exact ApiBody.noConfusion h

theorem suggestRoute_calls_le_one (oracle : Option String) (g : GraphCand)
    (goal : String) : (suggestRoute oracle g goal).modelCalls ≤ 1 := by
  unfold suggestRoute
  cases hv : validateGraph g <;> simp

theorem fromTextRoute_calls_le_one (oracle : Option String) (text : String)
    (typ : Option String) : ((fromTextRoute oracle text typ).2).modelCalls ≤ 1 :=
  Nat.le_refl 1

theorem stackRecommendRoute_calls_le_one (oracle : Except String (Option String))
    (req : String) : (stackRecommendRoute oracle req).modelCalls ≤ 1 := by
  unfold stackRecommendRoute
  by_cases h : req.length < 10
  · simp [decide_eq_true h]
  · simp only [decide_eq_false h, Bool.false_eq_true, if_false]
    cases oracle with
    | error e => simp
    | ok content => cases hc : generateStackRecommendation content <;> simp [hc]

theorem projectPlanRoute_calls_le_one (oracle : Except String (Option String))
    (idea : String) (stack : Option StackConfigCand) :
    (projectPlanRoute oracle idea stack).modelCalls ≤ 1 := by
  unfold projectPlanRoute
  cases hcond : (decide (idea.length < 10) || !(suppliedStackOk stack)) with
  | true => simp [hcond]
  | false =>
    simp only [hcond, Bool.false_eq_true, if_false]
    cases oracle with
    | error e => simp
    | ok content => cases hc : generateProjectPlan content <;> simp [hc]

/-- Claim C8, amended: a missing (null) model content degrades without retry
to the empty object for the JSON-parsing tasks (stack-recommend,
project-plan, scaffold, estimate), because the empty-object text is
substituted before JSON.parse; the graph endpoints (suggest, from-text) pass
the substituted empty-object text through as the raw body; the docs task
degrades to the empty string; an unparseable non-null content is not
degraded (JSON.parse throws, see the counterexample); and no handler invokes
the model more than once — there is no retry. -/
theorem claim8_null_content_degradation :
    generateStackRecommendation none = Except.ok (Json.obj [])
    ∧ generateProjectPlan none = Except.ok (Json.obj [])
    ∧ generateScaffold none = Except.ok (Json.obj [])
    ∧ estimateCostTime none = Except.ok (Json.obj [])
    ∧ generateDocsFromPlan none = ""
    ∧ (∀ g goal, validateOk g = true →
        suggestRoute none g goal = ⟨200, ApiBody.raw emptyObjText, 1⟩)
    ∧ (∀ text typ, ((fromTextRoute none text typ).2).body = ApiBody.raw emptyObjText)
    ∧ (∀ oracle g goal, (suggestRoute oracle g goal).modelCalls ≤ 1)
    ∧ (∀ oracle text typ, ((fromTextRoute oracle text typ).2).modelCalls ≤ 1)
    ∧ (∀ oracle req, (stackRecommendRoute oracle req).modelCalls ≤ 1)
    ∧ (∀ oracle idea stack, (projectPlanRoute oracle idea stack).modelCalls ≤ 1) := by
  refine ⟨rfl, rfl, rfl, rfl, rfl, ?_, ?_, ?_, ?_, ?_, ?_⟩
  · intro g goal hok
    cases hg : graphIssues g with
    | nil => simp [suggestRoute, validateGraph, hg, emptyObjText]
    | cons i is => simp [validateOk, validateGraph, hg] at hok
  · intro text typ
    rfl
  · exact suggestRoute_calls_le_one
  · exact fromTextRoute_calls_le_one
  · exact stackRecommendRoute_calls_le_one
  · exact projectPlanRoute_calls_le_one

/-- Witness for the amended claim C8 at the minimal accepted graph with a
null model content. -/
theorem claim8_null_content_degradation_witness :
    validateOk minimalCand = true
    ∧ suggestRoute none minimalCand goalText = ⟨200, ApiBody.raw emptyObjText, 1⟩ :=
  ⟨by decide,
   claim8_null_content_degradation.2.2.2.2.2.1 minimalCand goalText (by decide)⟩
